import Mathlib

/-!
Shallow embedding of `src/colorlegend.js` (d3-colorlegend).

The source is a single function `colorlegend(target, scale, type, options)`:
it validates the scale type against `['linear', 'quantile', 'ordinal']`,
applies falsy-or defaults to the options, resolves the target element by id
(stripping a leading `#`), reads its `offsetWidth`/`offsetHeight`, computes
the `colors` list per scale type, adjusts box width/height to fit, and then
appends (via d3) one `svg > g` containing, per color, a `text` label and a
`rect`, plus an optional title `text`.

Modelling conventions:
- JS numbers are modelled as `ℚ` (the layout arithmetic is plain field
  arithmetic; no float-specific behaviour is claimed).
- `throw` is modelled as `Except.error`; the successful render is the
  `Except.ok` payload, so an error path appends nothing to the target.
- The DOM is a list of elements with `id`, `tag` and offset dimensions.
  `document.getElementById` finds by id; `d3.select(sel)` follows
  `document.querySelector` semantics for the two selector shapes that can
  occur here: `#x` resolves by id `x`, and a bare name is a type (tag)
  selector.
- d3 data-join: `.data(colors).enter().append('g')` produces one group per
  entry of `colors`; `.text(f)` with `f` returning JS `undefined` leaves the
  label empty, modelled as `Option`.
-/

namespace ColorLegend

/-- A d3 scale as used by the source: `domain()`, `range()`, and (for the
linear branch) the scale callable as a function from a number to a color. -/
structure ScaleLike where
  domain : List ℚ
  range : List String
  app : ℚ → String

/-- The `options` argument. Each field is `none` when the key is absent. -/
structure LegendOptions where
  boxWidth : Option ℚ := none
  boxHeight : Option ℚ := none
  title : Option String := none
  fill : Option Bool := none
  linearBoxes : Option ℕ := none

/-- An HTML element with the properties the source reads. -/
structure Element where
  id : String
  tag : String
  offsetWidth : ℚ
  offsetHeight : ℚ
deriving DecidableEq

/-- The document: a flat list of elements. -/
structure Document where
  elements : List Element

/-- `document.getElementById`: first element with the given id. -/
def getElementById (doc : Document) (s : String) : Option Element :=
  doc.elements.find? (fun e => e.id == s)

/-- `d3.select(sel)` = `document.querySelector(sel)`: `#x` is an id
selector, a bare name is a type (tag) selector. -/
def d3select (doc : Document) (sel : String) : Option Element :=
  if sel.take 1 = "#" then getElementById doc (sel.drop 1)
  else doc.elements.find? (fun e => e.tag == sel)

/-- Lines 60-66: the `htmlElement` lookup used for `offsetWidth` and
`offsetHeight` — `getElementById` on the target with a leading `#`
stripped, else on the target directly. -/
def resolveTarget (doc : Document) (target : String) : Option Element :=
  if target.take 1 = "#" then getElementById doc (target.drop 1)
  else getElementById doc target

/-- JS falsy-or for a numeric option: `opts.x || d` (0 is falsy). -/
def numOr (v : Option ℚ) (d : ℚ) : ℚ :=
  match v with
  | none => d
  | some x => if x = 0 then d else x

/-- JS falsy-or for the integer `linearBoxes` option (0 is falsy). -/
def natOr (v : Option ℕ) (d : ℕ) : ℕ :=
  match v with
  | none => d
  | some x => if x = 0 then d else x

/-- JS `opts.title || null`: the empty string is falsy, so it collapses to
null (`none`). -/
def strOr (v : Option String) : Option String :=
  match v with
  | none => none
  | some s => if s = "" then none else some s

/-- JS `opts.fill || false`. -/
def boolOr (v : Option Bool) : Bool :=
  v.getD false

/-- Line 50: `opts = options || {}`, then line 53: `opts.boxWidth || 20`. -/
def optBoxWidth (options : Option LegendOptions) : ℚ :=
  numOr ((options.getD {}).boxWidth) 20

/-- Line 54: `opts.boxHeight || 20`. -/
def optBoxHeight (options : Option LegendOptions) : ℚ :=
  numOr ((options.getD {}).boxHeight) 20

/-- Line 55: `opts.title || null`. -/
def optTitle (options : Option LegendOptions) : Option String :=
  strOr ((options.getD {}).title)

/-- Line 56: `opts.fill || false`. -/
def optFill (options : Option LegendOptions) : Bool :=
  boolOr ((options.getD {}).fill)

/-- Line 57: `opts.linearBoxes || 9`. -/
def optLinearBoxes (options : Option LegendOptions) : ℕ :=
  natOr ((options.getD {}).linearBoxes) 9

/-- Line 38: the valid scale types (`quantize` deliberately not included). -/
def scaleTypes : List String := ["linear", "quantile", "ordinal"]

/-- Line 47: the thrown error message. -/
def errMsg (type : String) : String :=
  "Scale type, " ++ type ++ ", is not suported."

/-- Line 71: `padding = [2, 4, 10, 4]` (top, right, bottom, left). -/
def padding : List ℚ := [2, 4, 10, 4]

/-- Line 72: 3px spacing between boxes for ordinal scales, else 0. -/
def boxSpacingOf (type : String) : ℚ :=
  if type = "ordinal" then 3 else 0

/-- Line 73: `titlePadding = title ? 11 : 0`. -/
def titlePaddingOf (title : Option String) : ℚ :=
  if title.isSome then 11 else 0

/-- Lines 80-95: the `colors` list. quantile: the range as-is; ordinal:
`range[i]` for each domain index (out-of-range reads give JS `undefined`,
modelled by the sentinel); linear: `scale(i * ((max - min) / linearBoxes))`
with `min = domain[0]`, `max = domain[domain.length - 1]`. -/
def computeColors (type : String) (scale : ScaleLike) (linearBoxes : ℕ) :
    List String :=
  if type = "quantile" then scale.range
  else if type = "ordinal" then
    (List.range scale.domain.length).map (fun i => scale.range.getD i "undefined")
  else if type = "linear" then
    let min := scale.domain.getD 0 0
    let max := scale.domain.getD (scale.domain.length - 1) 0
    (List.range linearBoxes).map
      (fun i : ℕ => scale.app ((i : ℚ) * ((max - min) / (linearBoxes : ℚ))))
  else []

/-- Lines 99-101: recompute `boxWidth` when `fill` is set or the requested
total width does not fit in the element. -/
def effBoxWidth (fill : Bool) (w boxWidth boxSpacing : ℚ) (count : ℕ) : ℚ :=
  if fill = true ∨ w < (boxWidth + boxSpacing) * (count : ℚ) + padding.getD 1 0 + padding.getD 3 0 then
    (w - padding.getD 1 0 - padding.getD 3 0 - boxSpacing * (count : ℚ)) / (count : ℚ)
  else boxWidth

/-- Lines 102-104: recompute `boxHeight` when `fill` is set or the requested
height (plus paddings) does not fit in the element. -/
def effBoxHeight (fill : Bool) (h boxHeight titlePadding : ℚ) : ℚ :=
  if fill = true ∨ h < boxHeight + padding.getD 0 0 + padding.getD 2 0 + titlePadding then
    h - padding.getD 0 0 - padding.getD 2 0 - titlePadding
  else boxHeight

/-- A `text` node of a value label; `text = none` models the d3 data
function returning JS `undefined` (no label content). -/
structure TextNode where
  x : ℚ
  y : ℚ
  anchor : String
  pointerEvents : String
  text : Option ℚ
deriving DecidableEq

/-- A `rect` node. -/
structure RectNode where
  x : ℚ
  width : ℚ
  height : ℚ
  fill : String
deriving DecidableEq

/-- One `g` of the data join: the value label and the color box. -/
structure BoxGroup where
  label : TextNode
  rect : RectNode
deriving DecidableEq

instance : Inhabited BoxGroup :=
  ⟨⟨⟨0, 0, "", "", none⟩, ⟨0, 0, 0, ""⟩⟩⟩

/-- The title `text` node (its content is the title string). -/
structure TitleNode where
  x : ℚ
  y : ℚ
  anchor : String
  pointerEvents : String
  text : String
deriving DecidableEq

/-- A child of the legend `g`, in paint order. -/
inductive LegendNode where
  | box : BoxGroup → LegendNode
  | titleText : TitleNode → LegendNode
deriving DecidableEq

/-- Lines 135-147: the label text. Ordinal: always `domain[i]`; otherwise
only the first (`domain[0]`) and last (`domain[domain.length - 1]`) indices
get text, checked in that order. -/
def labelText (type : String) (domain : List ℚ) (count i : ℕ) : Option ℚ :=
  if type = "ordinal" then some (domain.getD i 0)
  else if i = 0 then some (domain.getD 0 0)
  else if i = count - 1 then some (domain.getD (domain.length - 1) 0)
  else none

/-- Lines 122-157: the i-th group of the data join — the label `text`
(lines 122-147) and the color `rect` (lines 151-157). -/
def mkBox (type : String) (colors : List String) (domain : List ℚ)
    (boxWidth boxHeight boxSpacing : ℚ) (i : ℕ) : BoxGroup :=
  { label :=
      { x := (i : ℚ) * (boxWidth + boxSpacing) + (if type ≠ "ordinal" then boxWidth / 2 else 0)
        y := boxHeight + 2
        anchor := if type = "ordinal" then "start" else "middle"
        pointerEvents := "none"
        text := labelText type domain colors.length i }
    rect :=
      { x := (i : ℚ) * (boxWidth + boxSpacing)
        width := boxWidth
        height := boxHeight
        fill := colors.getD i "undefined" } }

/-- The appended `svg > g` with its attributes and children. -/
structure LegendSvg where
  width : ℚ
  height : ℚ
  translate : ℚ × ℚ
  boxes : List BoxGroup
  title : Option TitleNode
deriving DecidableEq

/-- The children of the legend `g` in append order: the data-join groups
first, then the title when present (lines 159-169 run last). -/
def LegendSvg.children (s : LegendSvg) : List LegendNode :=
  s.boxes.map LegendNode.box ++ (s.title.map LegendNode.titleText).toList

/-- Lines 107-169: build the `svg` contents from the computed layout. -/
def buildSvg (type : String) (w h : ℚ) (colors : List String) (domain : List ℚ)
    (boxWidth boxHeight boxSpacing titlePadding : ℚ) (title : Option String) :
    LegendSvg :=
  { width := w
    height := h
    translate := (padding.getD 3 0, padding.getD 0 0)
    boxes := (List.range colors.length).map (mkBox type colors domain boxWidth boxHeight boxSpacing)
    title := title.map (fun t =>
      { x := (colors.length : ℚ) * (boxWidth / 2)
        y := boxHeight + titlePadding
        anchor := "middle"
        pointerEvents := "none"
        text := t }) }

/-- The outcome of a successful call: the element `d3.select(target)`
appended the svg to (none when the selection is empty), and the svg. -/
structure RenderResult where
  surface : Option Element
  svg : LegendSvg
deriving DecidableEq

/-- Lines 35-172: the whole `colorlegend` function. The scan loop over
`scaleTypes` (lines 38-45) computes list membership; a failed
`getElementById` makes line 67 throw a TypeError in JS, modelled as a
distinct error. -/
def colorlegend (doc : Document) (target : String) (scale : ScaleLike)
    (type : String) (options : Option LegendOptions) :
    Except String RenderResult :=
  if type ∈ scaleTypes then
    let boxWidth := optBoxWidth options
    let boxHeight := optBoxHeight options
    let title := optTitle options
    let fill := optFill options
    let linearBoxes := optLinearBoxes options
    match resolveTarget doc target with
    | none => Except.error "TypeError: htmlElement is null"
    | some htmlElement =>
      let w := htmlElement.offsetWidth
      let h := htmlElement.offsetHeight
      let boxSpacing := boxSpacingOf type
      let titlePadding := titlePaddingOf title
      let colors := computeColors type scale linearBoxes
      let boxWidth := effBoxWidth fill w boxWidth boxSpacing colors.length
      let boxHeight := effBoxHeight fill h boxHeight titlePadding
      Except.ok
        { surface := d3select doc target
          svg := buildSvg type w h colors scale.domain boxWidth boxHeight boxSpacing titlePadding title }
  else
    Except.error (errMsg type)

/-- The rendered box groups of a call (empty when the call threw). -/
def boxesOf (r : Except String RenderResult) : List BoxGroup :=
  match r with
  | Except.ok res => res.svg.boxes
  | Except.error _ => []

/-- The title node of a call, when one was appended. -/
def titleOf (r : Except String RenderResult) : Option TitleNode :=
  match r with
  | Except.ok res => res.svg.title
  | Except.error _ => none

/-- All graphical children appended by a call, in append order (empty when
the call threw: nothing was appended). -/
def childrenOf (r : Except String RenderResult) : List LegendNode :=
  match r with
  | Except.ok res => res.svg.children
  | Except.error _ => []

/-- The surface the svg was appended to (via `d3.select(target)`). -/
def surfaceOf (r : Except String RenderResult) : Option Element :=
  match r with
  | Except.ok res => res.surface
  | Except.error _ => none

/-- The `width` attribute of the appended svg. -/
def svgWidthOf (r : Except String RenderResult) : Option ℚ :=
  match r with
  | Except.ok res => some res.svg.width
  | Except.error _ => none

/-- The `height` attribute of the appended svg. -/
def svgHeightOf (r : Except String RenderResult) : Option ℚ :=
  match r with
  | Except.ok res => some res.svg.height
  | Except.error _ => none

/-- Horizontal extent from the left edge of box 0 to the right edge of the
last box. -/
def totalSpan (bs : List BoxGroup) : ℚ :=
  (bs.getD (bs.length - 1) default).rect.x + (bs.getD (bs.length - 1) default).rect.width
    - (bs.getD 0 default).rect.x

/-! ## Helper lemmas -/

theorem getD_map_range {α : Type} (f : ℕ → α) (n i : ℕ) (d : α) (h : i < n) :
    ((List.range n).map f).getD i d = f i := by
  rw [List.getD_eq_getElem?_getD, List.getElem?_map, List.getElem?_range h]
  rfl

theorem computeColors_quantile (scale : ScaleLike) (n : ℕ) :
    computeColors "quantile" scale n = scale.range := rfl

theorem computeColors_ordinal (scale : ScaleLike) (n : ℕ) :
    computeColors "ordinal" scale n =
      (List.range scale.domain.length).map (fun i => scale.range.getD i "undefined") := rfl

theorem computeColors_linear (scale : ScaleLike) (n : ℕ) :
    computeColors "linear" scale n =
      (List.range n).map (fun i : ℕ => scale.app ((i : ℚ) *
        ((scale.domain.getD (scale.domain.length - 1) 0 - scale.domain.getD 0 0) / (n : ℚ)))) := rfl

theorem getD_eq_get {α : Type} (l : List α) (d : α) (i : ℕ) (h : i < l.length) :
    l.getD i d = l.get ⟨i, h⟩ := by
  rw [List.getD_eq_getElem?_getD, List.getElem?_eq_getElem h]
  rfl

theorem boxSpacingOf_ordinal : boxSpacingOf "ordinal" = 3 := rfl

theorem boxSpacingOf_quantile : boxSpacingOf "quantile" = 0 := rfl

theorem boxSpacingOf_linear : boxSpacingOf "linear" = 0 := rfl

theorem labelText_ordinal (domain : List ℚ) (count i : ℕ) :
    labelText "ordinal" domain count i = some (domain.getD i 0) := rfl

theorem labelText_quantile (domain : List ℚ) (count i : ℕ) :
    labelText "quantile" domain count i =
      if i = 0 then some (domain.getD 0 0)
      else if i = count - 1 then some (domain.getD (domain.length - 1) 0)
      else none := rfl

theorem labelText_linear (domain : List ℚ) (count i : ℕ) :
    labelText "linear" domain count i =
      if i = 0 then some (domain.getD 0 0)
      else if i = count - 1 then some (domain.getD (domain.length - 1) 0)
      else none := rfl

/-- Unfolding a successful call: valid type and resolvable target. -/
theorem colorlegend_unfold (doc : Document) (target : String) (scale : ScaleLike)
    (type : String) (options : Option LegendOptions) (el : Element)
    (ht : type ∈ scaleTypes) (hel : resolveTarget doc target = some el) :
    colorlegend doc target scale type options = Except.ok
      { surface := d3select doc target
        svg := buildSvg type el.offsetWidth el.offsetHeight
          (computeColors type scale (optLinearBoxes options)) scale.domain
          (effBoxWidth (optFill options) el.offsetWidth (optBoxWidth options)
            (boxSpacingOf type) (computeColors type scale (optLinearBoxes options)).length)
          (effBoxHeight (optFill options) el.offsetHeight (optBoxHeight options)
            (titlePaddingOf (optTitle options)))
          (boxSpacingOf type) (titlePaddingOf (optTitle options))
          (optTitle options) } := by
  simp only [colorlegend, if_pos ht, hel]

theorem boxes_of_unfold (doc : Document) (target : String) (scale : ScaleLike)
    (type : String) (options : Option LegendOptions) (el : Element)
    (ht : type ∈ scaleTypes) (hel : resolveTarget doc target = some el) :
    boxesOf (colorlegend doc target scale type options) =
      (List.range (computeColors type scale (optLinearBoxes options)).length).map
        (mkBox type (computeColors type scale (optLinearBoxes options)) scale.domain
          (effBoxWidth (optFill options) el.offsetWidth (optBoxWidth options)
            (boxSpacingOf type) (computeColors type scale (optLinearBoxes options)).length)
          (effBoxHeight (optFill options) el.offsetHeight (optBoxHeight options)
            (titlePaddingOf (optTitle options)))
          (boxSpacingOf type)) := by
  rw [colorlegend_unfold doc target scale type options el ht hel]
  rfl

/-! ## Concrete fixtures used by witnesses and counterexamples -/

/-- A document with one 500x60 div of id `chart`. -/
def docW : Document := ⟨[⟨"chart", "div", 500, 60⟩]⟩

/-- The element of `docW`. -/
def elW : Element := ⟨"chart", "div", 500, 60⟩

/-- A scale with domain `[0, 100]` and a two-color range. -/
def scW : ScaleLike := ⟨[0, 100], ["red", "green"], fun q => toString q⟩

/-! ## Claims -/

/-- C1: for every `type` not in {linear, quantile, ordinal}, the call
throws the unsupported-scale-type error synchronously and nothing is
appended to the target (the error is raised before any graphical node is
built). -/
theorem unsupported_scale_type_error (doc : Document) (target : String)
    (scale : ScaleLike) (type : String) (options : Option LegendOptions)
    (h : type ∉ scaleTypes) :
    colorlegend doc target scale type options = Except.error (errMsg type) ∧
    childrenOf (colorlegend doc target scale type options) = [] := by
  refine ⟨?_, ?_⟩ <;> simp [colorlegend, h, childrenOf]

/-- C1 witness: the type `quantize` (explicitly unsupported in the source)
raises the error and appends nothing. -/
theorem unsupported_scale_type_error_witness :
    "quantize" ∉ scaleTypes ∧
    (colorlegend docW "#chart" scW "quantize" none = Except.error (errMsg "quantize") ∧
      childrenOf (colorlegend docW "#chart" scW "quantize" none) = []) :=
  ⟨by decide, unsupported_scale_type_error docW "#chart" scW "quantize" none (by decide)⟩

/-- C2: a linear call renders exactly `linearBoxes` boxes (9 when unset),
with box `i` filled by `scale(i * (max - min) / linearBoxes)` where
`min = domain[0]` and `max = domain[domain.length - 1]` — the sample
offsets start at 0, not at `min`. -/
theorem linear_colors_sampling (doc : Document) (target : String)
    (scale : ScaleLike) (options : Option LegendOptions) (el : Element)
    (hel : resolveTarget doc target = some el) (hd : scale.domain ≠ []) :
    (boxesOf (colorlegend doc target scale "linear" options)).length = optLinearBoxes options ∧
    ∀ i, i < optLinearBoxes options →
      ((boxesOf (colorlegend doc target scale "linear" options)).getD i default).rect.fill =
        scale.app ((i : ℚ) *
          ((scale.domain.getD (scale.domain.length - 1) 0 - scale.domain.getD 0 0) /
            (optLinearBoxes options : ℚ))) := by
  rw [boxes_of_unfold doc target scale "linear" options el (by decide) hel]
  rw [computeColors_linear]
  simp only [List.length_map, List.length_range]
  constructor
  · trivial
  · intro i hi
    rw [getD_map_range _ _ _ _ hi]
    simp only [mkBox]
    rw [getD_map_range _ _ _ _ hi]

/-- C2 witness: linear scale, domain `[0, 100]`, `linearBoxes = 4`. -/
theorem linear_colors_sampling_witness :
    resolveTarget docW "#chart" = some elW ∧ scW.domain ≠ [] ∧
    ((boxesOf (colorlegend docW "#chart" scW "linear" (some { linearBoxes := some 4 }))).length =
        optLinearBoxes (some { linearBoxes := some 4 }) ∧
      ∀ i, i < optLinearBoxes (some { linearBoxes := some 4 }) →
        ((boxesOf (colorlegend docW "#chart" scW "linear" (some { linearBoxes := some 4 }))).getD i default).rect.fill =
          scW.app ((i : ℚ) *
            ((scW.domain.getD (scW.domain.length - 1) 0 - scW.domain.getD 0 0) /
              (optLinearBoxes (some { linearBoxes := some 4 }) : ℚ)))) :=
  ⟨by decide, by decide,
    linear_colors_sampling docW "#chart" scW (some { linearBoxes := some 4 }) elW
      (by decide) (by decide)⟩

/-- C3: an ordinal call renders `domain.length` boxes; box `i` is filled
with `range[i]`, carries the label `domain[i]` anchored at `"start"`, and
consecutive boxes are 3 pixels apart. -/
theorem ordinal_rendering (doc : Document) (target : String) (scale : ScaleLike)
    (options : Option LegendOptions) (el : Element)
    (hel : resolveTarget doc target = some el) :
    (boxesOf (colorlegend doc target scale "ordinal" options)).length = scale.domain.length ∧
    (∀ i, i < scale.domain.length →
      ((boxesOf (colorlegend doc target scale "ordinal" options)).getD i default).label.text =
          some (scale.domain.getD i 0) ∧
      ((boxesOf (colorlegend doc target scale "ordinal" options)).getD i default).label.anchor =
          "start" ∧
      ∀ hr : i < scale.range.length,
        ((boxesOf (colorlegend doc target scale "ordinal" options)).getD i default).rect.fill =
          scale.range.get ⟨i, hr⟩) ∧
    (∀ i, i + 1 < scale.domain.length →
      ((boxesOf (colorlegend doc target scale "ordinal" options)).getD (i + 1) default).rect.x -
        (((boxesOf (colorlegend doc target scale "ordinal" options)).getD i default).rect.x +
          ((boxesOf (colorlegend doc target scale "ordinal" options)).getD i default).rect.width) =
        3) := by
  have hb := boxes_of_unfold doc target scale "ordinal" options el (by decide) hel
  rw [computeColors_ordinal] at hb
  rw [hb]
  simp only [List.length_map, List.length_range]
  refine ⟨by trivial, ?_, ?_⟩
  · intro i hi
    rw [getD_map_range _ _ _ _ hi]
    refine ⟨?_, ?_, ?_⟩
    · simp [mkBox, labelText_ordinal]
    · simp [mkBox]
    · intro hr
      simp only [mkBox]
      rw [getD_map_range _ _ _ _ hi]
      exact getD_eq_get scale.range "undefined" i hr
  · intro i hi
    rw [getD_map_range _ _ _ _ hi, getD_map_range _ _ _ _ (by omega : i < scale.domain.length)]
    simp only [mkBox, boxSpacingOf_ordinal]
    push_cast
    ring

/-- C3 witness: ordinal scale with domain `[0, 100]`, range
`["red", "green"]`, on a resolvable 500x60 target. -/
theorem ordinal_rendering_witness :
    resolveTarget docW "#chart" = some elW ∧
    ((boxesOf (colorlegend docW "#chart" scW "ordinal" none)).length = scW.domain.length ∧
      (∀ i, i < scW.domain.length →
        ((boxesOf (colorlegend docW "#chart" scW "ordinal" none)).getD i default).label.text =
            some (scW.domain.getD i 0) ∧
        ((boxesOf (colorlegend docW "#chart" scW "ordinal" none)).getD i default).label.anchor =
            "start" ∧
        ∀ hr : i < scW.range.length,
          ((boxesOf (colorlegend docW "#chart" scW "ordinal" none)).getD i default).rect.fill =
            scW.range.get ⟨i, hr⟩) ∧
      (∀ i, i + 1 < scW.domain.length →
        ((boxesOf (colorlegend docW "#chart" scW "ordinal" none)).getD (i + 1) default).rect.x -
          (((boxesOf (colorlegend docW "#chart" scW "ordinal" none)).getD i default).rect.x +
            ((boxesOf (colorlegend docW "#chart" scW "ordinal" none)).getD i default).rect.width) =
          3)) :=
  ⟨by decide, ordinal_rendering docW "#chart" scW none elW (by decide)⟩

/-- C4: a quantile call renders the scale range unmodified (one box per
range entry, box `i` filled with `range[i]`), labels anchored `"middle"`,
text only on the first (`domain[0]`) and last (`domain[last]`) boxes, and
zero spacing between consecutive boxes. -/
theorem quantile_rendering (doc : Document) (target : String) (scale : ScaleLike)
    (options : Option LegendOptions) (el : Element)
    (hel : resolveTarget doc target = some el) :
    (boxesOf (colorlegend doc target scale "quantile" options)).length = scale.range.length ∧
    (∀ i, ∀ hr : i < scale.range.length,
      ((boxesOf (colorlegend doc target scale "quantile" options)).getD i default).rect.fill =
          scale.range.get ⟨i, hr⟩ ∧
      ((boxesOf (colorlegend doc target scale "quantile" options)).getD i default).label.anchor =
          "middle" ∧
      ((boxesOf (colorlegend doc target scale "quantile" options)).getD i default).label.text =
        (if i = 0 then some (scale.domain.getD 0 0)
         else if i = scale.range.length - 1 then
           some (scale.domain.getD (scale.domain.length - 1) 0)
         else none)) ∧
    (∀ i, i + 1 < scale.range.length →
      ((boxesOf (colorlegend doc target scale "quantile" options)).getD (i + 1) default).rect.x -
        (((boxesOf (colorlegend doc target scale "quantile" options)).getD i default).rect.x +
          ((boxesOf (colorlegend doc target scale "quantile" options)).getD i default).rect.width) =
        0) := by
  have hb := boxes_of_unfold doc target scale "quantile" options el (by decide) hel
  rw [computeColors_quantile] at hb
  rw [hb]
  simp only [List.length_map, List.length_range]
  refine ⟨by trivial, ?_, ?_⟩
  · intro i hr
    rw [getD_map_range _ _ _ _ hr]
    refine ⟨?_, ?_, ?_⟩
    · simp only [mkBox]
      exact getD_eq_get scale.range "undefined" i hr
    · simp [mkBox]
    · simp only [mkBox, labelText_quantile]
  · intro i hi
    rw [getD_map_range _ _ _ _ hi, getD_map_range _ _ _ _ (by omega : i < scale.range.length)]
    simp only [mkBox, boxSpacingOf_quantile]
    push_cast
    ring

/-- C4 witness: quantile scale with a two-color range on a resolvable
target. -/
theorem quantile_rendering_witness :
    resolveTarget docW "#chart" = some elW ∧
    ((boxesOf (colorlegend docW "#chart" scW "quantile" none)).length = scW.range.length ∧
      (∀ i, ∀ hr : i < scW.range.length,
        ((boxesOf (colorlegend docW "#chart" scW "quantile" none)).getD i default).rect.fill =
            scW.range.get ⟨i, hr⟩ ∧
        ((boxesOf (colorlegend docW "#chart" scW "quantile" none)).getD i default).label.anchor =
            "middle" ∧
        ((boxesOf (colorlegend docW "#chart" scW "quantile" none)).getD i default).label.text =
          (if i = 0 then some (scW.domain.getD 0 0)
           else if i = scW.range.length - 1 then
             some (scW.domain.getD (scW.domain.length - 1) 0)
           else none)) ∧
      (∀ i, i + 1 < scW.range.length →
        ((boxesOf (colorlegend docW "#chart" scW "quantile" none)).getD (i + 1) default).rect.x -
          (((boxesOf (colorlegend docW "#chart" scW "quantile" none)).getD i default).rect.x +
            ((boxesOf (colorlegend docW "#chart" scW "quantile" none)).getD i default).rect.width) =
          0)) :=
  ⟨by decide, quantile_rendering docW "#chart" scW none elW (by decide)⟩

/-- C5: every rendered box has width
`(targetWidth - leftPad - rightPad - spacing*count) / count` exactly when
`fill` is set or `(boxWidth+spacing)*count + rightPad + leftPad` exceeds the
target width, and the requested `boxWidth` otherwise; independently its
height is `targetHeight - topPad - bottomPad - titlePad` exactly when `fill`
is set or `boxHeight + topPad + bottomPad + titlePad` exceeds the target
height, and the requested `boxHeight` otherwise (top=2, right=4, bottom=10,
left=4). -/
theorem effective_box_dimensions (doc : Document) (target : String)
    (scale : ScaleLike) (type : String) (options : Option LegendOptions)
    (el : Element) (ht : type ∈ scaleTypes)
    (hel : resolveTarget doc target = some el) (i : ℕ)
    (hi : i < (boxesOf (colorlegend doc target scale type options)).length) :
    (((boxesOf (colorlegend doc target scale type options)).getD i default).rect.width =
      if optFill options = true ∨
          el.offsetWidth <
            (optBoxWidth options + boxSpacingOf type) *
                ((boxesOf (colorlegend doc target scale type options)).length : ℚ) + 4 + 4 then
        (el.offsetWidth - 4 - 4 -
            boxSpacingOf type *
              ((boxesOf (colorlegend doc target scale type options)).length : ℚ)) /
          ((boxesOf (colorlegend doc target scale type options)).length : ℚ)
      else optBoxWidth options) ∧
    (((boxesOf (colorlegend doc target scale type options)).getD i default).rect.height =
      if optFill options = true ∨
          el.offsetHeight <
            optBoxHeight options + 2 + 10 + titlePaddingOf (optTitle options) then
        el.offsetHeight - 2 - 10 - titlePaddingOf (optTitle options)
      else optBoxHeight options) := by
  have hb := boxes_of_unfold doc target scale type options el ht hel
  rw [hb] at hi ⊢
  simp only [List.length_map, List.length_range] at hi ⊢
  rw [getD_map_range _ _ _ _ hi]
  simp only [mkBox, effBoxWidth, effBoxHeight]
  refine ⟨?_, ?_⟩
  · have h1 : padding.getD 1 0 = 4 := rfl
    have h3 : padding.getD 3 0 = 4 := rfl
    rw [h1, h3]
  · have h0 : padding.getD 0 0 = 2 := rfl
    have h2 : padding.getD 2 0 = 10 := rfl
    rw [h0, h2]

/-- C5 witness: a linear call on a 500x60 target with default options: the
requested geometry fits, so boxes stay 20x20. -/
theorem effective_box_dimensions_witness :
    "linear" ∈ scaleTypes ∧
    resolveTarget docW "#chart" = some elW ∧
    0 < (boxesOf (colorlegend docW "#chart" scW "linear" none)).length ∧
    ((((boxesOf (colorlegend docW "#chart" scW "linear" none)).getD 0 default).rect.width =
      if optFill none = true ∨
          elW.offsetWidth <
            (optBoxWidth none + boxSpacingOf "linear") *
                ((boxesOf (colorlegend docW "#chart" scW "linear" none)).length : ℚ) + 4 + 4 then
        (elW.offsetWidth - 4 - 4 -
            boxSpacingOf "linear" *
              ((boxesOf (colorlegend docW "#chart" scW "linear" none)).length : ℚ)) /
          ((boxesOf (colorlegend docW "#chart" scW "linear" none)).length : ℚ)
      else optBoxWidth none) ∧
    (((boxesOf (colorlegend docW "#chart" scW "linear" none)).getD 0 default).rect.height =
      if optFill none = true ∨
          elW.offsetHeight <
            optBoxHeight none + 2 + 10 + titlePaddingOf (optTitle none) then
        elW.offsetHeight - 2 - 10 - titlePaddingOf (optTitle none)
      else optBoxHeight none)) :=
  ⟨by decide, by decide, by decide,
    effective_box_dimensions docW "#chart" scW "linear" none elW (by decide) (by decide) 0
      (by decide)⟩

theorem titlePaddingOf_some (t : String) : titlePaddingOf (some t) = 11 := rfl

theorem titlePaddingOf_none : titlePaddingOf none = 0 := rfl

/-- A 100x40 target: small enough that ordinal fill geometry is visible. -/
def docF : Document := ⟨[⟨"chart", "div", 100, 40⟩]⟩

/-- Options requesting `fill`. -/
def optsFill : LegendOptions := { fill := some true }

/-- Shared computation: with `fill` and at least one box, the boxes span
`w - rightPad - leftPad - boxSpacing` (the last reserved gap is never
rendered). -/
theorem fill_span_calc (doc : Document) (target : String) (scale : ScaleLike)
    (type : String) (options : Option LegendOptions) (el : Element)
    (ht : type ∈ scaleTypes) (hel : resolveTarget doc target = some el)
    (hfill : optFill options = true)
    (hcount : 0 < (boxesOf (colorlegend doc target scale type options)).length) :
    totalSpan (boxesOf (colorlegend doc target scale type options)) =
      el.offsetWidth - 4 - 4 - boxSpacingOf type := by
  have hb := boxes_of_unfold doc target scale type options el ht hel
  rw [hb] at hcount ⊢
  simp only [List.length_map, List.length_range] at hcount ⊢
  have h1 : padding.getD 1 0 = 4 := rfl
  have h3 : padding.getD 3 0 = 4 := rfl
  have hn : ((computeColors type scale (optLinearBoxes options)).length : ℚ) ≠ 0 := by
    exact_mod_cast Nat.pos_iff_ne_zero.mp hcount
  simp only [totalSpan, List.length_map, List.length_range]
  rw [getD_map_range _ _ _ _ (by omega), getD_map_range _ _ _ _ hcount]
  simp only [mkBox, effBoxWidth, hfill, true_or, if_true]
  rw [h1, h3]
  rw [Nat.cast_sub (by omega : 1 ≤ (computeColors type scale (optLinearBoxes options)).length)]
  push_cast
  field_simp
  ring

/-- Shared computation: with `fill`, every box height is
`h - topPad - bottomPad - titlePad`. -/
theorem fill_height_calc (doc : Document) (target : String) (scale : ScaleLike)
    (type : String) (options : Option LegendOptions) (el : Element)
    (ht : type ∈ scaleTypes) (hel : resolveTarget doc target = some el)
    (hfill : optFill options = true) (i : ℕ)
    (hi : i < (boxesOf (colorlegend doc target scale type options)).length) :
    ((boxesOf (colorlegend doc target scale type options)).getD i default).rect.height =
      el.offsetHeight - 2 - 10 - titlePaddingOf (optTitle options) := by
  have hb := boxes_of_unfold doc target scale type options el ht hel
  rw [hb] at hi ⊢
  simp only [List.length_map, List.length_range] at hi
  have h0 : padding.getD 0 0 = 2 := rfl
  have h2 : padding.getD 2 0 = 10 := rfl
  rw [getD_map_range _ _ _ _ hi]
  simp only [mkBox, effBoxHeight, hfill, true_or, if_true]
  rw [h0, h2]

/-- C6 counterexample: ordinal scale, `fill = true`, target width 100. The
code recomputes `boxWidth = (w - leftPad - rightPad - spacing*count)/count`,
reserving spacing for `count` gaps although only `count - 1` are rendered,
so the boxes span 89, not `100 - 4 - 4 = 92`. -/
theorem fill_span_counterexample :
    optFill (some optsFill) = true ∧
    resolveTarget docF "#chart" = some ⟨"chart", "div", 100, 40⟩ ∧
    totalSpan (boxesOf (colorlegend docF "#chart" scW "ordinal" (some optsFill))) ≠
      (100 : ℚ) - 4 - 4 := by
  refine ⟨by decide, by decide, ?_⟩
  rw [fill_span_calc docF "#chart" scW "ordinal" (some optsFill) ⟨"chart", "div", 100, 40⟩
    (by decide) (by decide) (by decide) (by decide)]
  rw [boxSpacingOf_ordinal]
  norm_num

/-- C6 amended: with `fill = true` and at least one box, the boxes span
`targetWidth - leftPad - rightPad - boxSpacing` (that is, exactly
`targetWidth - leftPad - rightPad` for linear and quantile, but 3px short
of it for ordinal, whose spacing is budgeted for one gap too many); the
effective box height spans
`targetHeight - topPad - bottomPad - titlePad` as claimed. -/
theorem fill_span_amended (doc : Document) (target : String) (scale : ScaleLike)
    (type : String) (options : Option LegendOptions) (el : Element)
    (ht : type ∈ scaleTypes) (hel : resolveTarget doc target = some el)
    (hfill : optFill options = true)
    (hcount : 0 < (boxesOf (colorlegend doc target scale type options)).length) :
    totalSpan (boxesOf (colorlegend doc target scale type options)) =
      el.offsetWidth - 4 - 4 - boxSpacingOf type ∧
    ∀ i, i < (boxesOf (colorlegend doc target scale type options)).length →
      ((boxesOf (colorlegend doc target scale type options)).getD i default).rect.height =
        el.offsetHeight - 2 - 10 - titlePaddingOf (optTitle options) :=
  ⟨fill_span_calc doc target scale type options el ht hel hfill hcount,
    fun i hi => fill_height_calc doc target scale type options el ht hel hfill i hi⟩

/-- C6 amended witness: linear scale on a 500x60 target with `fill`,
default 9 boxes: span `= 500 - 4 - 4 - 0 = 492`. -/
theorem fill_span_amended_witness :
    "linear" ∈ scaleTypes ∧
    resolveTarget docW "#chart" = some elW ∧
    optFill (some optsFill) = true ∧
    0 < (boxesOf (colorlegend docW "#chart" scW "linear" (some optsFill))).length ∧
    (totalSpan (boxesOf (colorlegend docW "#chart" scW "linear" (some optsFill))) =
        elW.offsetWidth - 4 - 4 - boxSpacingOf "linear" ∧
      ∀ i, i < (boxesOf (colorlegend docW "#chart" scW "linear" (some optsFill))).length →
        ((boxesOf (colorlegend docW "#chart" scW "linear" (some optsFill))).getD i default).rect.height =
          elW.offsetHeight - 2 - 10 - titlePaddingOf (optTitle (some optsFill))) :=
  ⟨by decide, by decide, by decide, by decide,
    fill_span_amended docW "#chart" scW "linear" (some optsFill) elW (by decide) (by decide)
      (by decide) (by decide)⟩

/-- C7: when a title is set, exactly one title node is appended, after all
boxes and labels, at `x = count * boxWidth/2`, `y = boxHeight + 11`
(effective box dimensions), anchored `"middle"`, non-interactive, with the
title as text, and the title padding is 11; when no title is set (including
the falsy empty string), no title node is appended and the title padding
is 0. -/
theorem title_rendering (doc : Document) (target : String) (scale : ScaleLike)
    (type : String) (options : Option LegendOptions) (el : Element)
    (ht : type ∈ scaleTypes) (hel : resolveTarget doc target = some el) :
    (∀ t, optTitle options = some t →
      titlePaddingOf (optTitle options) = 11 ∧
      childrenOf (colorlegend doc target scale type options) =
        (boxesOf (colorlegend doc target scale type options)).map LegendNode.box ++
          [LegendNode.titleText
            { x := ((boxesOf (colorlegend doc target scale type options)).length : ℚ) *
                (effBoxWidth (optFill options) el.offsetWidth (optBoxWidth options)
                    (boxSpacingOf type)
                    (boxesOf (colorlegend doc target scale type options)).length / 2)
              y := effBoxHeight (optFill options) el.offsetHeight (optBoxHeight options) 11 + 11
              anchor := "middle"
              pointerEvents := "none"
              text := t }]) ∧
    (optTitle options = none →
      titlePaddingOf (optTitle options) = 0 ∧
      titleOf (colorlegend doc target scale type options) = none ∧
      childrenOf (colorlegend doc target scale type options) =
        (boxesOf (colorlegend doc target scale type options)).map LegendNode.box) := by
  have hc := colorlegend_unfold doc target scale type options el ht hel
  constructor
  · intro t htt
    refine ⟨by rw [htt]; rfl, ?_⟩
    rw [hc]
    simp only [childrenOf, boxesOf, LegendSvg.children, buildSvg, htt,
      titlePaddingOf_some, Option.map_some', Option.toList_some,
      List.length_map, List.length_range]
  · intro htt
    refine ⟨by rw [htt]; rfl, ?_, ?_⟩
    · rw [hc]
      simp only [titleOf, buildSvg, htt, Option.map_none']
    · rw [hc]
      simp only [childrenOf, boxesOf, LegendSvg.children, buildSvg, htt,
        Option.map_none', Option.toList_none, List.append_nil]

/-- C7 witness: quantile scale with title `"Legend"` on a 500x60 target. -/
theorem title_rendering_witness :
    "quantile" ∈ scaleTypes ∧
    resolveTarget docW "#chart" = some elW ∧
    optTitle (some { title := some "Legend" }) = some "Legend" ∧
    (titlePaddingOf (optTitle (some { title := some "Legend" })) = 11 ∧
      childrenOf (colorlegend docW "#chart" scW "quantile" (some { title := some "Legend" })) =
        (boxesOf (colorlegend docW "#chart" scW "quantile" (some { title := some "Legend" }))).map
            LegendNode.box ++
          [LegendNode.titleText
            { x := ((boxesOf (colorlegend docW "#chart" scW "quantile"
                  (some { title := some "Legend" }))).length : ℚ) *
                (effBoxWidth (optFill (some { title := some "Legend" })) elW.offsetWidth
                    (optBoxWidth (some { title := some "Legend" }))
                    (boxSpacingOf "quantile")
                    (boxesOf (colorlegend docW "#chart" scW "quantile"
                      (some { title := some "Legend" }))).length / 2)
              y := effBoxHeight (optFill (some { title := some "Legend" })) elW.offsetHeight
                  (optBoxHeight (some { title := some "Legend" })) 11 + 11
              anchor := "middle"
              pointerEvents := "none"
              text := "Legend" }]) :=
  ⟨by decide, by decide, by decide,
    (title_rendering docW "#chart" scW "quantile" (some { title := some "Legend" }) elW
      (by decide) (by decide)).1 "Legend" (by decide)⟩

/-- A document whose only element has id `mydiv` (and tag `div`). -/
def docT : Document := ⟨[⟨"mydiv", "div", 300, 50⟩]⟩

/-- The element of `docT`. -/
def elT : Element := ⟨"mydiv", "div", 300, 50⟩

/-- C8 counterexample: for the bare identifier `mydiv`, the size query
(`getElementById`) resolves the element of id `mydiv`, but the append goes
through `d3.select("mydiv")`, a type selector matching no element — the
graphics are not appended to the resolved surface. -/
theorem target_resolution_counterexample :
    resolveTarget docT "mydiv" = some elT ∧
    svgWidthOf (colorlegend docT "mydiv" scW "ordinal" none) = some elT.offsetWidth ∧
    surfaceOf (colorlegend docT "mydiv" scW "ordinal" none) ≠ some elT := by
  decide

/-- C8 amended: the size query strips a leading `#` and resolves by id
(else resolves the bare identifier by id), and the svg records that
element's width and height; the graphics are appended to that same surface
when the identifier starts with `#` (for a bare identifier the append
resolves the string as a selector instead, which may be a different or no
surface). -/
theorem target_resolution_amended (doc : Document) (target : String)
    (scale : ScaleLike) (type : String) (options : Option LegendOptions)
    (el : Element) (ht : type ∈ scaleTypes)
    (hel : resolveTarget doc target = some el) :
    svgWidthOf (colorlegend doc target scale type options) = some el.offsetWidth ∧
    svgHeightOf (colorlegend doc target scale type options) = some el.offsetHeight ∧
    (target.take 1 = "#" →
      surfaceOf (colorlegend doc target scale type options) = some el) := by
  rw [colorlegend_unfold doc target scale type options el ht hel]
  refine ⟨rfl, rfl, ?_⟩
  intro hh
  simp only [surfaceOf, d3select, if_pos hh]
  simp only [resolveTarget, if_pos hh] at hel
  exact hel

/-- C8 amended witness: the `#chart` target resolves to the `chart`
element, which receives the svg and supplies its dimensions. -/
theorem target_resolution_amended_witness :
    "ordinal" ∈ scaleTypes ∧
    resolveTarget docW "#chart" = some elW ∧
    (svgWidthOf (colorlegend docW "#chart" scW "ordinal" none) = some elW.offsetWidth ∧
      svgHeightOf (colorlegend docW "#chart" scW "ordinal" none) = some elW.offsetHeight ∧
      (("#chart" : String).take 1 = "#" →
        surfaceOf (colorlegend docW "#chart" scW "ordinal" none) = some elW)) :=
  ⟨by decide, by decide,
    target_resolution_amended docW "#chart" scW "ordinal" none elW (by decide) (by decide)⟩

/-- C9: unset option fields fall back to boxWidth 20, boxHeight 20, no
title, fill false, linearBoxes 9; and explicitly falsy values (0, empty
string, false) behave exactly like unset fields — the whole call is
unchanged. -/
theorem defaults_and_falsy_options (doc : Document) (target : String)
    (scale : ScaleLike) (type : String) :
    colorlegend doc target scale type
        (some { boxWidth := some 0, boxHeight := some 0, title := some "",
                fill := some false, linearBoxes := some 0 }) =
      colorlegend doc target scale type none ∧
    colorlegend doc target scale type none =
      colorlegend doc target scale type
        (some { boxWidth := some 20, boxHeight := some 20, title := none,
                fill := some false, linearBoxes := some 9 }) := by
  exact ⟨rfl, rfl⟩

/-- C10: a non-ordinal call that renders exactly one box labels it with
`domain[0]`: the `i == 0` branch wins over the `i == colors.length - 1`
branch when index 0 is both first and last. -/
theorem single_box_label_first_branch (doc : Document) (target : String)
    (scale : ScaleLike) (type : String) (options : Option LegendOptions)
    (el : Element) (ht : type = "linear" ∨ type = "quantile")
    (hel : resolveTarget doc target = some el)
    (hone : (boxesOf (colorlegend doc target scale type options)).length = 1) :
    ((boxesOf (colorlegend doc target scale type options)).getD 0 default).label.text =
      some (scale.domain.getD 0 0) := by
  have htm : type ∈ scaleTypes := by
    rcases ht with h | h <;> rw [h] <;> decide
  have hb := boxes_of_unfold doc target scale type options el htm hel
  rw [hb] at hone ⊢
  simp only [List.length_map, List.length_range] at hone
  rw [getD_map_range _ _ _ _ (by omega)]
  rcases ht with h | h <;> subst h
  · simp [mkBox, labelText_linear]
  · simp [mkBox, labelText_quantile]

/-- C10 witness: linear scale with `linearBoxes = 1` and domain `[0, 100]`:
the single box is labeled `0` (`domain[0]`), not `100`. -/
theorem single_box_label_first_branch_witness :
    ("linear" = "linear" ∨ "linear" = "quantile") ∧
    resolveTarget docW "#chart" = some elW ∧
    (boxesOf (colorlegend docW "#chart" scW "linear" (some { linearBoxes := some 1 }))).length = 1 ∧
    ((boxesOf (colorlegend docW "#chart" scW "linear"
        (some { linearBoxes := some 1 }))).getD 0 default).label.text =
      some (scW.domain.getD 0 0) :=
  ⟨Or.inl rfl, by decide, by decide,
    single_box_label_first_branch docW "#chart" scW "linear" (some { linearBoxes := some 1 })
      elW (Or.inl rfl) (by decide) (by decide)⟩

end ColorLegend
